import Mathlib

/-!
# discourse-video: status resolution and rendering

A shallow embedding of `assets/javascripts/discourse/initializers/discourse-video.js`.

Modelling conventions.

* A DOM container is the list of its child nodes; a node is a text node, an
  unparsed markup fragment (what an `innerHTML` assignment leaves behind) or an
  element with a tag, a class list, attributes and children. Markup fragments come
  from `i18n` and `renderIcon` and are taken to hold no `.icon-container` element,
  so a selector never matches inside one.
* `querySelector` walks the descendants in document order and returns the path
  (child indices) of the first element carrying the class; `replaceChild`
  succeeds only for a path of length one (a direct child) and otherwise throws
  `NotFoundError`, as the DOM does.
* Strings are sequences of characters; `String.prototype.replace` with a string
  pattern removes or replaces the first occurrence only.
* The host services (`i18n`, `renderIcon`, `loadScript`, `ajax`) are fields of
  an environment `Env`; a failed script load is `false`, a failed request is
  `none`.
* `elem.querySelectorAll("div[data-video-id]")` and
  `elem.querySelectorAll("div[data-download-video-id]")` are given as the two
  lists of an `Elem`: the render targets and the download targets, in document
  order, none nested in another. A target is the value of its id attribute (which
  may be the empty string) and its children.
* A post is `none` when `findLoadedPost` found none; its `discourse_video` field is
  `none` when null or undefined, and so is a record of the list.
* An exception thrown inside a `forEach` callback ends `renderVideos`; what was
  rendered before stays. An exception inside a continuation, a failed script load
  and a failed request are unhandled rejections and are collected.
* Promise continuations run after the synchronous pass, in the order in which
  they were issued. `renderVideos` is the synchronous pass and returns the
  continuations it issued; `settle` runs them; `run` does both.
-/

namespace DiscourseVideo

/-! ## DOM -/

/-- DOM node: text, unparsed markup, or an element. -/
inductive Node where
  | text (data : String)
  | raw (html : String)
  | element (tag : String) (classList : List String) (attrs : List (String × String))
      (children : List Node)

/-- Shift the first index of a path by one (the path continues in the next sibling). -/
def shift : List Nat → List Nat
  | [] => []
  | i :: p => (i + 1) :: p

mutual
/-- Path of the first element with class `cls` in the subtree rooted at the node
(the node itself first, then its descendants in document order). -/
def Node.firstMatch (cls : String) : Node → Option (List Nat)
  | .text _ => none
  | .raw _ => none
  | .element _ cl _ kids => if cls ∈ cl then some [] else firstMatchIn cls kids
/-- Path of the first element with class `cls` among the nodes and their descendants. -/
def firstMatchIn (cls : String) : List Node → Option (List Nat)
  | [] => none
  | n :: ns =>
    match Node.firstMatch cls n with
    | some p => some (0 :: p)
    | none => (firstMatchIn cls ns).map shift
end

/-- Model of `container.querySelector("." + cls)`: the path, from the container, of the
first descendant element with the class, or `none` (JavaScript `null`). -/
def querySelector (container : List Node) (cls : String) : Option (List Nat) :=
  firstMatchIn cls container

/-- Model of `container.replaceChild(newChild, oldChild)`, `oldChild` given by its path:
throws unless `oldChild` is a direct child of the container. -/
def replaceChild (container : List Node) (newChild : Node) (oldChild : List Nat) :
    Except String (List Node) :=
  match oldChild with
  | [i] => if i < container.length then .ok (container.set i newChild) else .error "NotFoundError"
  | _ => .error "NotFoundError"

/-- Model of `container.appendChild(newChild)`. -/
def appendChild (container : List Node) (newChild : Node) : List Node :=
  container ++ [newChild]

/-! ## JavaScript strings -/

/-- Replace the first occurrence of `pat` in a character sequence by `rep`. -/
def replaceFirst (pat rep : List Char) : List Char → List Char
  | [] => if pat = [] then rep else []
  | c :: cs =>
    if pat.isPrefixOf (c :: cs) = true then rep ++ (c :: cs).drop pat.length
    else c :: replaceFirst pat rep cs

/-- Model of `s.replace(pat, rep)` for a string pattern (first occurrence only). -/
def replace (s pat rep : String) : String :=
  ⟨replaceFirst pat.data rep.data s.data⟩

/-- JavaScript truthiness of a status record: present and non-empty (`none` is a null
or undefined record). -/
def truthy : Option String → Bool
  | some s => decide (s ≠ "")
  | none => false

/-- Text of a status record. Only a truthy record is ever read, so the value for a
missing record is never used. -/
def recordText : Option String → String
  | some s => s
  | none => ""

/-- Value of a field of the JSON response: absent (`undefined`), `null`, or a string. -/
inductive Field where
  | undefined
  | null
  | string (value : String)
deriving DecidableEq

/-- JavaScript truthiness of a response field: a non-empty string. -/
def Field.truthy : Field → Bool
  | .string s => decide (s ≠ "")
  | _ => false

/-- Template-literal interpolation of a response field: an absent field prints as
`undefined`, a null one as `null`. -/
def Field.interp : Field → String
  | .undefined => "undefined"
  | .null => "null"
  | .string s => s

/-! ## Environment -/

def HLS_SCRIPT_URL : String := "/plugins/discourse-video/javascripts/hls.min.js"
def MUX_PLAYER_URL : String := "https://cdn.jsdelivr.net/npm/@mux/mux-player"

/-- Response of `GET /discourse_video/playback_id/{videoId}`. -/
structure Data where
  playback_id : Field
  mp4_filename : Field

/-- Host services the initializer calls. -/
structure Env where
  i18n : String → String
  renderIcon : String → String → String
  loadScript : String → Bool
  ajax : String → Option Data

/-- Request URL of the playback lookup, the template literal of `renderVideo` and
`renderVideoDownloadLink`. -/
def playbackUrl (videoId : String) : String :=
  "/discourse_video/playback_id/" ++ videoId

/-! ## Placeholders -/

/-- Entry of the `placeholders` table. -/
structure Placeholder where
  iconHtml : String
  string : String

/-- Table `placeholders`; `none` is the `undefined` of a missing key. -/
def placeholders (env : Env) (type : String) : Option Placeholder :=
  if type = "pending" then
    some ⟨"<div class='spinner'></div>", env.i18n "discourse_video.state.pending"⟩
  else if type = "waiting" then
    some ⟨"<div class='spinner'></div>", env.i18n "discourse_video.state.pending"⟩
  else if type = "errored" then
    some ⟨env.renderIcon "string" "triangle-exclamation", env.i18n "discourse_video.state.errored"⟩
  else if type = "unknown" then
    some ⟨env.renderIcon "string" "circle-question", env.i18n "discourse_video.state.unknown"⟩
  else none

/-- Node `iconContainerDiv` that `renderPlaceholder` builds from a table entry. -/
def iconContainerDiv (ph : Placeholder) : Node :=
  .element "div" ["icon-container"] []
    [.element "div" ["discourse-video-message"] []
      [.element "div" ["video-state-icon"] [] [.raw ph.iconHtml],
       .element "div" ["video-state"] [] [.raw ph.string]]]

/-- Function `renderPlaceholder(container, type)`: build the placeholder, then swap it
for the first `.icon-container` found in the container, or append it. -/
def renderPlaceholder (env : Env) (container : List Node) (type : String) :
    Except String (List Node) :=
  match placeholders env type with
  | none => .error "TypeError"
  | some ph =>
    match querySelector container "icon-container" with
    | some placeholder => replaceChild container (iconContainerDiv ph) placeholder
    | none => .ok (appendChild container (iconContainerDiv ph))

/-! ## Player and download link -/

/-- Element `muxPlayer` that the playback continuation creates. -/
def muxPlayer (playback_id : String) : Node :=
  .element "mux-player" ["mux-video"]
    [("playback-id", playback_id), ("stream-type", "on-demand"), ("controls", "true"),
     ("accent-color", "#FF4800")] []

/-- Continuation of `renderVideo`: the callback given to `ajax(...).then`. -/
def renderVideoData (env : Env) (videoContainer : List Node) (data : Data) :
    Except String (List Node) :=
  if data.playback_id.truthy = false then
    renderPlaceholder env videoContainer "pending"
  else
    match querySelector videoContainer "icon-container" with
    | some placeholder =>
      replaceChild videoContainer (muxPlayer (data.playback_id.interp)) placeholder
    | none => .ok (appendChild videoContainer (muxPlayer (data.playback_id.interp)))

/-- Value `mp4Url` of `renderVideoDownloadLink`. -/
def mp4Url (data : Data) : String :=
  "https://stream.mux.com/" ++ data.playback_id.interp ++ "/" ++ data.mp4_filename.interp
    ++ "?download=" ++ data.playback_id.interp ++ ".mp4"

/-- Element `downloadLink` of `renderVideoDownloadLink`. -/
def downloadLink (env : Env) (data : Data) : Node :=
  .element "a" ["download-mux-video"] [("href", mp4Url data)]
    [.text (env.i18n "discourse_video.download_video")]

/-- Continuation of `renderVideoDownloadLink`: the callback given to `ajax(...).then`. -/
def renderVideoDownloadLinkData (env : Env) (videoContainer : List Node) (data : Data) :
    List Node :=
  if data.mp4_filename.truthy = true then appendChild videoContainer (downloadLink env data)
  else videoContainer

/-! ## Targets, posts and continuations -/

/-- Render target or download target: the value of its `data-video-id` (or
`data-download-video-id`) attribute and its child nodes. -/
structure Target where
  videoId : String
  children : List Node

/-- Fragment `elem` as `renderVideos` sees it: what the two `querySelectorAll` calls
return. -/
structure Elem where
  videoTargets : List Target
  downloadTargets : List Target

/-- Post model: `discourse_video` is `none` when the field is null or undefined, and a
record of the list is `none` when it is null or undefined. -/
structure Post where
  discourse_video : Option (List (Option String))

/-- Continuation waiting on `loadScript(...).then(...)`: the container it captured
(by its position in the fragment) and the video id. -/
inductive Task where
  | playback (target : Nat) (videoId : String)
  | download (target : Nat) (videoId : String)
deriving DecidableEq

/-- Function `renderVideo(videoContainer, videoId)`, synchronous part: the guard, then
the script load whose continuation is queued. The container is never null here. -/
def renderVideo (target : Nat) (videoId : String) : List Task :=
  if videoId = "" then [] else [Task.playback target videoId]

/-- Function `renderVideoDownloadLink(videoContainer, videoId)`, synchronous part. -/
def renderVideoDownloadLink (target : Nat) (videoId : String) : List Task :=
  [Task.download target videoId]

/-- State of a container while the records of the post are walked: its children, the
continuations issued so far, and the exception that stopped the walk, if any. -/
structure Pass where
  children : List Node
  tasks : List Task
  thrown : Option String

/-- Status of a record for a video id: `video_string.replace(videoId + ":", "")`. -/
def statusOf (videoId video_string : String) : String :=
  replace video_string (videoId ++ ":") ""

/-- Continue the walk after a placeholder was rendered, or stop at its exception. -/
def andThen (r : Except String (List Node)) (container : List Node)
    (rest : List Node → Pass) : Pass :=
  match r with
  | .ok c => rest c
  | .error e => ⟨container, [], some e⟩

/-- Inner loop `post.discourse_video.forEach` of the render targets (source lines
117 to 132). -/
def eachVideoString (env : Env) (target : Nat) (videoId : String) :
    List (Option String) → List Node → Pass
  | [], container => ⟨container, [], none⟩
  | video_string :: rest, container =>
    if truthy video_string = true then
      let status := statusOf videoId (recordText video_string)
      if status = "ready" then
        let r := eachVideoString env target videoId rest container
        ⟨r.children, renderVideo target videoId ++ r.tasks, r.thrown⟩
      else if status = "errored" then
        andThen (renderPlaceholder env container "errored") container
          (eachVideoString env target videoId rest)
      else if status = "waiting" then
        andThen (renderPlaceholder env container "waiting") container
          (eachVideoString env target videoId rest)
      else
        andThen (renderPlaceholder env container "pending") container
          (eachVideoString env target videoId rest)
    else
      andThen (renderPlaceholder env container "waiting") container
        (eachVideoString env target videoId rest)

/-- Inner loop `post.discourse_video.forEach` of the download targets (source lines
145 to 152). -/
def eachDownloadString (target : Nat) (videoId : String) : List (Option String) → List Task
  | [] => []
  | video_string :: rest =>
    if truthy video_string = true then
      if statusOf videoId (recordText video_string) = "ready" then
        renderVideoDownloadLink target videoId ++ eachDownloadString target videoId rest
      else eachDownloadString target videoId rest
    else eachDownloadString target videoId rest

/-- Result of the synchronous pass: the fragment, the continuations issued, and the
exception that escaped, if any. -/
structure Outcome where
  elem : Elem
  tasks : List Task
  thrown : Option String

/-- Outer loop over `div[data-video-id]` (source lines 111 to 133), from position `i`:
the targets after the loop, the continuations issued, the exception that escaped.
A missing post makes `post.discourse_video` throw. -/
def eachVideoTarget (env : Env) (post : Option Post) :
    Nat → List Target → List Target × List Task × Option String
  | _, [] => ([], [], none)
  | i, t :: ts =>
    match post with
    | none => (t :: ts, [], some "TypeError")
    | some p =>
      match p.discourse_video with
      | none =>
        let r := eachVideoTarget env post (i + 1) ts
        (t :: r.1, r.2.1, r.2.2)
      | some videos =>
        if t.videoId = "" then
          let r := eachVideoTarget env post (i + 1) ts
          (t :: r.1, r.2.1, r.2.2)
        else
          let q := eachVideoString env i t.videoId videos t.children
          match q.thrown with
          | some e => (⟨t.videoId, q.children⟩ :: ts, q.tasks, some e)
          | none =>
            let r := eachVideoTarget env post (i + 1) ts
            (⟨t.videoId, q.children⟩ :: r.1, q.tasks ++ r.2.1, r.2.2)

/-- Outer loop over `div[data-download-video-id]` (source lines 135 to 153), from
position `i`: the continuations issued and the exception that escaped. -/
def eachDownloadTarget (post : Option Post) : Nat → List Target → List Task × Option String
  | _, [] => ([], none)
  | i, t :: ts =>
    match post with
    | none => ([], some "TypeError")
    | some p =>
      match p.discourse_video with
      | none => eachDownloadTarget post (i + 1) ts
      | some videos =>
        if t.videoId = "" then eachDownloadTarget post (i + 1) ts
        else
          let r := eachDownloadTarget post (i + 1) ts
          (eachDownloadString i t.videoId videos ++ r.1, r.2)

/-- Function `renderVideos(elem, post)`, synchronous pass. -/
def renderVideos (env : Env) (elem : Elem) (post : Option Post) : Outcome :=
  let v := eachVideoTarget env post 0 elem.videoTargets
  match v.2.2 with
  | some e => ⟨⟨v.1, elem.downloadTargets⟩, v.2.1, some e⟩
  | none =>
    let d := eachDownloadTarget post 0 elem.downloadTargets
    ⟨⟨v.1, elem.downloadTargets⟩, v.2.1 ++ d.1, d.2⟩

/-! ## Running the continuations -/

/-- Replace the children of the target at position `i`. -/
def setChildren : List Target → Nat → List Node → List Target
  | [], _, _ => []
  | t :: ts, 0, children => ⟨t.videoId, children⟩ :: ts
  | t :: ts, i + 1, children => t :: setChildren ts i children

/-- Fragment with the unhandled rejections collected while continuations ran. -/
structure Settled where
  elem : Elem
  rejections : List String

/-- Run one continuation: the script load, the request, then the callback on the
captured container. A failed load, a failed request or a throwing callback leaves the
fragment as it is and is recorded as an unhandled rejection. -/
def runTask (env : Env) (s : Settled) : Task → Settled
  | .playback i videoId =>
    if env.loadScript MUX_PLAYER_URL = true then
      match env.ajax (playbackUrl videoId), s.elem.videoTargets.get? i with
      | some data, some t =>
        match renderVideoData env t.children data with
        | .ok c => ⟨⟨setChildren s.elem.videoTargets i c, s.elem.downloadTargets⟩, s.rejections⟩
        | .error e => ⟨s.elem, s.rejections ++ [e]⟩
      | none, _ => ⟨s.elem, s.rejections ++ ["ajax"]⟩
      | _, none => s
    else ⟨s.elem, s.rejections ++ ["loadScript"]⟩
  | .download i videoId =>
    if env.loadScript HLS_SCRIPT_URL = true then
      match env.ajax (playbackUrl videoId), s.elem.downloadTargets.get? i with
      | some data, some t =>
        ⟨⟨s.elem.videoTargets,
          setChildren s.elem.downloadTargets i (renderVideoDownloadLinkData env t.children data)⟩,
         s.rejections⟩
      | none, _ => ⟨s.elem, s.rejections ++ ["ajax"]⟩
      | _, none => s
    else ⟨s.elem, s.rejections ++ ["loadScript"]⟩

/-- Run the queued continuations in the order in which they were issued. -/
def settle (env : Env) (elem : Elem) (tasks : List Task) : Settled :=
  tasks.foldl (runTask env) ⟨elem, []⟩

/-- Final state of one call of `renderVideos`, its continuations included. -/
structure Final where
  elem : Elem
  thrown : Option String
  rejections : List String

/-- One call of `renderVideos(elem, post)` followed by its continuations. -/
def run (env : Env) (elem : Elem) (post : Option Post) : Final :=
  let o := renderVideos env elem post
  let s := settle env o.elem o.tasks
  ⟨s.elem, o.thrown, s.rejections⟩

/-- Environment used in the examples: identity translations, icon markup named after
the icon, scripts load, and the backend answers every request with `data`. -/
def envWith (data : Option Data) : Env :=
  ⟨fun k => k, fun _ icon => icon, fun _ => true, fun _ => data⟩

/-- Environment in which no script loads; otherwise as `envWith`. -/
def envScriptFails (data : Option Data) : Env :=
  ⟨fun k => k, fun _ icon => icon, fun _ => false, fun _ => data⟩

/-! ## Initializer and the video-changed message -/

/-- Site settings the initializer reads. -/
structure SiteSettings where
  discourse_video_enabled : Bool
  discourse_video_file_extensions : String

/-- Current user, with the upload capability flag. -/
structure User where
  can_upload_video : Bool

/-- Plugin API as the initializer sees it: the current user (`none` when nobody is
logged in) and whether the two optional methods exist. -/
structure Api where
  currentUser : Option User
  decorateChatMessage : Bool
  registerChatComposerButton : Bool

/-- Registration the initializer makes with the plugin API. -/
inductive Registration where
  | decorateCookedElement (id : String)
  | decorateChatMessage
  | registerCustomPostMessageCallback (type : String)
  | addComposerUploadHandler (extensions : List String)
  | onToolbarCreate (id : String)
  | registerChatComposerButton (id : String)
deriving DecidableEq

/-- Split a character sequence at every occurrence of a separator character. -/
def splitOn (sep : Char) : List Char → List (List Char)
  | [] => [[]]
  | c :: cs =>
    if c = sep then [] :: splitOn sep cs
    else
      match splitOn sep cs with
      | [] => [[c]]
      | w :: ws => (c :: w) :: ws

/-- Model of `s.split(sep)` for a one-character separator. -/
def split (s : String) (sep : Char) : List String :=
  (splitOn sep s.data).map String.mk

/-- Function `initializeDiscourseVideo(api)`: the registrations it makes, in order. -/
def initializeDiscourseVideo (siteSettings : SiteSettings) (api : Api) : List Registration :=
  [Registration.decorateCookedElement "discourse-video"]
    ++ (if api.decorateChatMessage = true then [Registration.decorateChatMessage] else [])
    ++ (match api.currentUser with
        | some user =>
          if user.can_upload_video = true then
            [Registration.registerCustomPostMessageCallback "discourse_video_video_changed",
             Registration.addComposerUploadHandler
               (split siteSettings.discourse_video_file_extensions '|'),
             Registration.onToolbarCreate "discourse-video-upload"]
              ++ (if api.registerChatComposerButton = true then
                    [Registration.registerChatComposerButton "discourse-video-upload"]
                  else [])
          else []
        | none => [])

/-- Method `initialize(container)` of the exported object (the word is reserved in
Lean, hence the name); `withPluginApi` is taken to run its callback. -/
def initializer (siteSettings : SiteSettings) (api : Api) : List Registration :=
  if siteSettings.discourse_video_enabled = true then initializeDiscourseVideo siteSettings api
  else []

/-- Article element of the page: the value of its `data-post-id` attribute and the
targets below it. -/
structure Article where
  postId : String
  elem : Elem

/-- Post stream of the topic controller: the loaded post of an id, and whether the
promise of `triggerChangedPost` resolves. -/
structure Stream where
  findLoadedPost : Nat → Option Post
  triggerChangedPost : Nat → Bool

/-- Result of the message callback: the articles, the exception that escaped the loop
over them, and the rejections of the continuations. -/
structure Changed where
  articles : List Article
  thrown : Option String
  rejections : List String

/-- Loop `elements.forEach` of the message callback (source lines 194 to 198). The
continuations of an article touch only that article, so they are run right after its
synchronous pass. -/
def eachArticle (env : Env) (post : Option Post) (id : String) : List Article → Changed
  | [] => ⟨[], none, []⟩
  | a :: rest =>
    if a.postId = id then
      let f := run env a.elem post
      match f.thrown with
      | some e => ⟨⟨a.postId, f.elem⟩ :: rest, some e, f.rejections⟩
      | none =>
        let r := eachArticle env post id rest
        ⟨⟨a.postId, f.elem⟩ :: r.articles, r.thrown, f.rejections ++ r.rejections⟩
    else
      let r := eachArticle env post id rest
      ⟨a :: r.articles, r.thrown, r.rejections⟩

/-- Callback registered for `discourse_video_video_changed` (source lines 188 to 200),
on a message with the post id `messageId` and the articles of the document. -/
def videoChanged (env : Env) (stream : Stream) (articles : List Article) (messageId : Nat) :
    Changed :=
  let post := stream.findLoadedPost messageId
  if stream.triggerChangedPost messageId = true then
    eachArticle env post (toString messageId) articles
  else ⟨articles, none, ["triggerChangedPost"]⟩

/-! ## Specification vocabulary -/

/-- Placeholder marker test: the node is an element of class `icon-container`. -/
def isMarker (n : Node) : Prop :=
  Node.firstMatch "icon-container" n = some []

/-- Container whose first `.icon-container` element, if there is one, is one of its
direct children. -/
def markerIsChild (container : List Node) : Prop :=
  ∀ p, querySelector container "icon-container" = some p → ∃ i, p = [i]

/-- Container that is empty or holds exactly one placeholder child. -/
def emptyOrOnePlaceholder (container : List Node) : Prop :=
  container = [] ∨ ∃ c, container = [c] ∧ isMarker c

/-- Container with `node` put in place of its first marker child, or appended when it
has no marker. -/
def withMarker (container : List Node) (node : Node) : List Node :=
  match querySelector container "icon-container" with
  | some [i] => container.set i node
  | _ => container ++ [node]

/-- Pending placeholder node (the waiting placeholder is the same node). -/
def pendingNode (env : Env) : Node :=
  iconContainerDiv ⟨"<div class='spinner'></div>", env.i18n "discourse_video.state.pending"⟩

/-- Errored placeholder node. -/
def erroredNode (env : Env) : Node :=
  iconContainerDiv
    ⟨env.renderIcon "string" "triangle-exclamation", env.i18n "discourse_video.state.errored"⟩

/-- Placeholder type the dispatch table gives to a status other than `ready`. -/
def tableType (status : String) : String :=
  if status = "errored" then "errored" else if status = "waiting" then "waiting" else "pending"

/-- Node of the placeholder the dispatch table gives to a status other than `ready`. -/
def tableNode (env : Env) (status : String) : Node :=
  if status = "errored" then erroredNode env else pendingNode env

/-- Records of a status list whose text starts with `"<id>:"`. -/
def restrictTo (videoId : String) (videos : List (Option String)) : List (Option String) :=
  videos.filter fun r =>
    match r with
    | some v => (videoId ++ ":").data.isPrefixOf v.data
    | none => false

/-- Container with a placeholder nested below a paragraph: its first `.icon-container`
element is a grandchild, not a child. -/
def nestedMarker : List Node :=
  [.element "p" [] [] [.element "div" ["icon-container"] [] []]]

/-- Placeholder type dispatched for a record that does not resolve to `ready`: waiting
for a null or empty record, otherwise the table entry of its status. -/
def recordType (videoId : String) (r : Option String) : String :=
  if truthy r = true then tableType (statusOf videoId (recordText r)) else "waiting"

/-- Placeholder node dispatched for a record that does not resolve to `ready`. -/
def recordNode (env : Env) (videoId : String) (r : Option String) : Node :=
  if truthy r = true then tableNode env (statusOf videoId (recordText r)) else pendingNode env

/-- Record that resolves to `ready` for a video id. -/
def resolvesReady (videoId : String) (r : Option String) : Prop :=
  truthy r = true ∧ statusOf videoId (recordText r) = "ready"

/-- Record text that contains `"<id>:"` somewhere. -/
def mentions (videoId v : String) : Prop :=
  (videoId ++ ":").data <:+: v.data

/-- Record that starts with `"<id>:"`, the form of a status record of the video. -/
def startsWithId (videoId : String) (r : Option String) : Prop :=
  ∃ v, r = some v ∧ (videoId ++ ":").data <+: v.data

/-- Record that resolves to `errored` for a video id. -/
def resolvesErrored (videoId : String) (r : Option String) : Prop :=
  truthy r = true ∧ statusOf videoId (recordText r) = "errored"

/-- Unknown placeholder node, the fourth entry of the table. -/
def unknownNode (env : Env) : Node :=
  iconContainerDiv
    ⟨env.renderIcon "string" "circle-question", env.i18n "discourse_video.state.unknown"⟩

/-- Container `c2` holds only nodes of `c`, pending (or waiting) placeholders, errored
placeholders and players. -/
def grown (env : Env) (c c2 : List Node) : Prop :=
  ∀ n ∈ c2, n ∈ c ∨ n = pendingNode env ∨ n = erroredNode env ∨ ∃ p, n = muxPlayer p

/-- Effect of one download continuation on the children of its container. -/
def downloadStep (env : Env) (videoId : String) (c : List Node) : List Node :=
  if env.loadScript HLS_SCRIPT_URL = true then
    match env.ajax (playbackUrl videoId) with
    | some data => renderVideoDownloadLinkData env c data
    | none => c
  else c

/-! ## Lemmas: strings -/

theorem replaceFirst_append (pat s : List Char) : replaceFirst pat [] (pat ++ s) = s := by
  cases pat with
  | nil => cases s <;> simp [replaceFirst]
  | cons a pat => simp [replaceFirst]

theorem replaceFirst_of_absent (pat : List Char) :
    ∀ s : List Char, ¬ pat <:+: s → replaceFirst pat [] s = s
  | [], h => by
    have hp : pat ≠ [] := fun e => h (e ▸ List.infix_refl _)
    simp [replaceFirst, hp]
  | c :: cs, h => by
    have h1 : ¬ pat <+: c :: cs := fun hp => h hp.isInfix
    have h2 : ¬ pat <:+: cs := fun hp => h (hp.trans (List.suffix_cons c cs).isInfix)
    have ih := replaceFirst_of_absent pat cs h2
    simp only [replaceFirst, List.isPrefixOf_iff_prefix]
    rw [if_neg h1, ih]

theorem statusOf_prefixed (videoId s : String) : statusOf videoId (videoId ++ ":" ++ s) = s := by
  simp only [statusOf, replace, String.data_append]
  show String.mk (replaceFirst (videoId.data ++ [':']) [] (videoId.data ++ [':'] ++ s.data)) = s
  rw [replaceFirst_append]

theorem prefixed_ne_empty (videoId s : String) : videoId ++ ":" ++ s ≠ "" := by
  intro h
  have := congrArg String.data h
  simp [String.data_append] at this

/-! ## Lemmas: DOM -/

theorem firstMatchIn_cons_some (cls : String) (x : Node) (xs : List Node) (p : List Nat)
    (h : Node.firstMatch cls x = some p) : firstMatchIn cls (x :: xs) = some (0 :: p) := by
  simp [firstMatchIn, h]

theorem firstMatchIn_cons_none (cls : String) (x : Node) (xs : List Node)
    (h : Node.firstMatch cls x = none) :
    firstMatchIn cls (x :: xs) = (firstMatchIn cls xs).map shift := by
  simp [firstMatchIn, h]

theorem shift_eq_singleton (q : List Nat) (i : Nat) (h : shift q = [i]) :
    ∃ j, q = [j] ∧ i = j + 1 := by
  cases q with
  | nil => simp [shift] at h
  | cons j q =>
    simp only [shift, List.cons.injEq] at h
    exact ⟨j, by rw [h.2], h.1.symm⟩

theorem firstMatchIn_set (cls : String) (n : Node) (hn : Node.firstMatch cls n = some []) :
    ∀ (xs : List Node) (i : Nat), firstMatchIn cls xs = some [i] →
      i < xs.length ∧ firstMatchIn cls (xs.set i n) = some [i]
  | [], i, h => by simp [firstMatchIn] at h
  | x :: xs, i, h => by
    cases hx : Node.firstMatch cls x with
    | some p =>
      rw [firstMatchIn_cons_some cls x xs p hx] at h
      simp only [Option.some.injEq, List.cons.injEq] at h
      obtain ⟨hi, -⟩ := h
      subst hi
      exact ⟨by simp, by simp [firstMatchIn_cons_some cls n xs [] hn]⟩
    | none =>
      rw [firstMatchIn_cons_none cls x xs hx] at h
      cases hq : firstMatchIn cls xs with
      | none => simp [hq] at h
      | some q =>
        rw [hq] at h
        simp only [Option.map_some', Option.some.injEq] at h
        obtain ⟨j, hj, hi⟩ := shift_eq_singleton q i h
        subst hj hi
        obtain ⟨hlt, hset⟩ := firstMatchIn_set cls n hn xs j hq
        refine ⟨by simpa using hlt, ?_⟩
        rw [List.set_cons_succ, firstMatchIn_cons_none cls x _ hx, hset]
        rfl

theorem firstMatchIn_append (cls : String) (n : Node) (hn : Node.firstMatch cls n = some []) :
    ∀ xs : List Node, firstMatchIn cls xs = none →
      firstMatchIn cls (xs ++ [n]) = some [xs.length]
  | [], _ => by simp [firstMatchIn_cons_some cls n [] [] hn]
  | x :: xs, h => by
    cases hx : Node.firstMatch cls x with
    | some p => rw [firstMatchIn_cons_some cls x xs p hx] at h; simp at h
    | none =>
      rw [firstMatchIn_cons_none cls x xs hx] at h
      have hxs : firstMatchIn cls xs = none := by
        cases hq : firstMatchIn cls xs with
        | none => rfl
        | some q => simp [hq] at h
      rw [List.cons_append, firstMatchIn_cons_none cls x _ hx,
        firstMatchIn_append cls n hn xs hxs]
      rfl

theorem isMarker_iconContainerDiv (ph : Placeholder) : isMarker (iconContainerDiv ph) := by
  simp [isMarker, iconContainerDiv, Node.firstMatch]

theorem not_isMarker_muxPlayer (p : String) : ¬ isMarker (muxPlayer p) := by
  simp [isMarker, muxPlayer, Node.firstMatch, firstMatchIn]

theorem markerIsChild_nil : markerIsChild [] := by
  intro p h
  simp [querySelector, firstMatchIn] at h

theorem markerIsChild_of_emptyOrOne (c : List Node) (h : emptyOrOnePlaceholder c) :
    markerIsChild c := by
  rcases h with rfl | ⟨m, rfl, hm⟩
  · exact markerIsChild_nil
  · intro p hp
    rw [querySelector, firstMatchIn_cons_some _ m [] [] hm] at hp
    exact ⟨0, by simpa using hp.symm⟩

theorem withMarker_of_emptyOrOne (c : List Node) (n : Node) (h : emptyOrOnePlaceholder c) :
    withMarker c n = [n] := by
  rcases h with rfl | ⟨m, rfl, hm⟩
  · simp [withMarker, querySelector, firstMatchIn]
  · simp [withMarker, querySelector, firstMatchIn_cons_some _ m [] [] hm]

/-- Query result on a container after a marker node was put in: the marker is found as a
direct child, and putting in another node afterwards overwrites it. -/
theorem withMarker_spec (c : List Node) (n : Node) (hc : markerIsChild c) (hn : isMarker n) :
    markerIsChild (withMarker c n) ∧ ∀ m, withMarker (withMarker c n) m = withMarker c m := by
  cases hq : querySelector c "icon-container" with
  | none =>
    have h1 : withMarker c n = c ++ [n] := by simp [withMarker, hq]
    have h2 : querySelector (c ++ [n]) "icon-container" = some [c.length] :=
      firstMatchIn_append _ n hn c hq
    refine ⟨?_, ?_⟩
    · intro p hp
      rw [h1, h2] at hp
      exact ⟨c.length, by simpa using hp.symm⟩
    · intro m
      rw [h1]
      simp [withMarker, h2, hq]
  | some p =>
    obtain ⟨i, rfl⟩ := hc p hq
    obtain ⟨-, hset⟩ := firstMatchIn_set _ n hn c i hq
    have h1 : withMarker c n = c.set i n := by simp [withMarker, hq]
    have h2 : querySelector (c.set i n) "icon-container" = some [i] := hset
    refine ⟨?_, ?_⟩
    · intro p hp
      rw [h1, h2] at hp
      exact ⟨i, by simpa using hp.symm⟩
    · intro m
      rw [h1]
      simp [withMarker, h2, hq, List.set_set]

theorem replaceOrAppend_ok (c : List Node) (n : Node) (hc : markerIsChild c) :
    (match querySelector c "icon-container" with
      | some placeholder => replaceChild c n placeholder
      | none => Except.ok (appendChild c n)) = Except.ok (withMarker c n) := by
  cases hq : querySelector c "icon-container" with
  | none => simp [withMarker, hq, appendChild]
  | some p =>
    obtain ⟨i, rfl⟩ := hc p hq
    have hlt : i < c.length := by
      cases c with
      | nil => simp [querySelector, firstMatchIn] at hq
      | cons x xs =>
        cases hx : Node.firstMatch "icon-container" x with
        | some q =>
          rw [querySelector, firstMatchIn_cons_some _ x xs q hx] at hq
          simp only [Option.some.injEq, List.cons.injEq] at hq
          rw [← hq.1]; simp
        | none =>
          rw [querySelector, firstMatchIn_cons_none _ x xs hx] at hq
          cases hr : firstMatchIn "icon-container" xs with
          | none => simp [hr] at hq
          | some r =>
            rw [hr] at hq
            simp only [Option.map_some', Option.some.injEq] at hq
            obtain ⟨j, hj, hi⟩ := shift_eq_singleton r i hq
            subst hj hi
            have := (firstMatchIn_set _ (iconContainerDiv ⟨"", ""⟩)
              (isMarker_iconContainerDiv _) xs j hr).1
            simpa using this
    simp [withMarker, hq, replaceChild, hlt]

theorem renderPlaceholder_ok (env : Env) (c : List Node) (type : String) (ph : Placeholder)
    (hc : markerIsChild c) (hp : placeholders env type = some ph) :
    renderPlaceholder env c type = .ok (withMarker c (iconContainerDiv ph)) := by
  simp only [renderPlaceholder, hp]
  exact replaceOrAppend_ok c _ hc

theorem placeholders_pending (env : Env) :
    placeholders env "pending"
      = some ⟨"<div class='spinner'></div>", env.i18n "discourse_video.state.pending"⟩ := by
  simp [placeholders]

theorem placeholders_waiting (env : Env) :
    placeholders env "waiting"
      = some ⟨"<div class='spinner'></div>", env.i18n "discourse_video.state.pending"⟩ := by
  simp [placeholders]

theorem placeholders_errored (env : Env) :
    placeholders env "errored"
      = some ⟨env.renderIcon "string" "triangle-exclamation",
          env.i18n "discourse_video.state.errored"⟩ := by
  simp [placeholders]

theorem renderPlaceholder_pending (env : Env) (c : List Node) (hc : markerIsChild c) :
    renderPlaceholder env c "pending" = .ok (withMarker c (pendingNode env)) :=
  renderPlaceholder_ok env c _ _ hc (placeholders_pending env)

theorem renderPlaceholder_waiting (env : Env) (c : List Node) (hc : markerIsChild c) :
    renderPlaceholder env c "waiting" = .ok (withMarker c (pendingNode env)) :=
  renderPlaceholder_ok env c _ _ hc (placeholders_waiting env)

theorem renderPlaceholder_errored (env : Env) (c : List Node) (hc : markerIsChild c) :
    renderPlaceholder env c "errored" = .ok (withMarker c (erroredNode env)) :=
  renderPlaceholder_ok env c _ _ hc (placeholders_errored env)

theorem renderVideoData_player (env : Env) (c : List Node) (data : Data)
    (hc : markerIsChild c) (hp : data.playback_id.truthy = true) :
    renderVideoData env c data = .ok (withMarker c (muxPlayer (data.playback_id.interp))) := by
  simp only [renderVideoData, hp]
  exact replaceOrAppend_ok c _ hc

theorem renderVideoData_pending (env : Env) (c : List Node) (data : Data)
    (hc : markerIsChild c) (hp : data.playback_id.truthy = false) :
    renderVideoData env c data = .ok (withMarker c (pendingNode env)) := by
  simp only [renderVideoData, hp]
  exact renderPlaceholder_pending env c hc

/-! ## Lemmas: one render target -/

theorem mem_withMarker (c : List Node) (m n : Node) (h : n ∈ withMarker c m) :
    n ∈ c ∨ n = m := by
  unfold withMarker at h
  split at h
  · exact List.mem_or_eq_of_mem_set h
  · simpa using h

theorem ready_record (videoId : String) : videoId ++ ":ready" = videoId ++ ":" ++ "ready" := by
  rw [String.append_assoc]
  rfl

theorem truthy_prefixed (videoId s : String) : truthy (some (videoId ++ ":" ++ s)) = true := by
  simp [truthy, prefixed_ne_empty]

theorem renderVideos_single (env : Env) (videoId : String) (c : List Node)
    (videos : List (Option String)) (hid : videoId ≠ "") :
    renderVideos env ⟨[⟨videoId, c⟩], []⟩ (some ⟨some videos⟩)
      = ⟨⟨[⟨videoId, (eachVideoString env 0 videoId videos c).children⟩], []⟩,
          (eachVideoString env 0 videoId videos c).tasks,
          (eachVideoString env 0 videoId videos c).thrown⟩ := by
  cases h : (eachVideoString env 0 videoId videos c).thrown with
  | none => simp [renderVideos, eachVideoTarget, eachDownloadTarget, hid, h]
  | some e => simp [renderVideos, eachVideoTarget, hid, h]

theorem eachVideoString_ready (env : Env) (videoId : String) (c : List Node)
    (hid : videoId ≠ "") :
    eachVideoString env 0 videoId [some (videoId ++ ":" ++ "ready")] c
      = ⟨c, [Task.playback 0 videoId], none⟩ := by
  simp [eachVideoString, truthy_prefixed, recordText, statusOf_prefixed, renderVideo, hid]

theorem eachVideoString_other (env : Env) (videoId s : String) (c : List Node)
    (hs : s ≠ "ready") :
    eachVideoString env 0 videoId [some (videoId ++ ":" ++ s)] c
      = andThen (renderPlaceholder env c
          (if s = "errored" then "errored" else if s = "waiting" then "waiting" else "pending"))
          c (fun c => ⟨c, [], none⟩) := by
  by_cases h1 : s = "errored"
  · simp [eachVideoString, truthy_prefixed, recordText, statusOf_prefixed, h1]
  · by_cases h2 : s = "waiting"
    · simp [eachVideoString, truthy_prefixed, recordText, statusOf_prefixed, h2]
    · simp [eachVideoString, truthy_prefixed, recordText, statusOf_prefixed, hs, h1, h2]

theorem settle_playback_single (env : Env) (videoId : String) (c c2 : List Node) (data : Data)
    (hload : env.loadScript MUX_PLAYER_URL = true)
    (hajax : env.ajax (playbackUrl videoId) = some data)
    (hr : renderVideoData env c data = .ok c2) :
    settle env ⟨[⟨videoId, c⟩], []⟩ [Task.playback 0 videoId]
      = ⟨⟨[⟨videoId, c2⟩], []⟩, []⟩ := by
  simp [settle, runTask, hload, hajax, hr, setChildren]

/-! ## Claims C1 to C5 -/

/-- C1 (amended): for every non-empty video id, every non-empty playback identifier p,
and every render target tagged with that id whose container is empty or holds one
placeholder child, `renderVideos` with the status list `["<id>:ready"]` and a backend
that answers `playback_id = p` (the player script having loaded) ends with the
container holding exactly the one `mux-player` element bound to p, which is no
placeholder; nothing is thrown or rejected. -/
theorem ready_renders_single_player (env : Env) (videoId p : String) (mp4 : Field)
    (container : List Node) (hid : videoId ≠ "") (hp : p ≠ "")
    (hc : emptyOrOnePlaceholder container)
    (hload : env.loadScript MUX_PLAYER_URL = true)
    (hajax : env.ajax (playbackUrl videoId) = some ⟨.string p, mp4⟩) :
    run env ⟨[⟨videoId, container⟩], []⟩ (some ⟨some [some (videoId ++ ":ready")]⟩)
        = ⟨⟨[⟨videoId, [muxPlayer p]⟩], []⟩, none, []⟩
      ∧ ¬ isMarker (muxPlayer p) := by
  refine ⟨?_, not_isMarker_muxPlayer p⟩
  have hr : renderVideoData env container ⟨.string p, mp4⟩ = .ok [muxPlayer p] := by
    rw [renderVideoData_player env container _ (markerIsChild_of_emptyOrOne _ hc)
      (by simp [Field.truthy, hp])]
    simp [withMarker_of_emptyOrOne _ _ hc, Field.interp]
  simp only [run]
  rw [ready_record, renderVideos_single env videoId container _ hid,
    eachVideoString_ready env videoId container hid]
  simp only [settle_playback_single env videoId container _ _ hload hajax hr]

/-- C1 witness: video id 42, playback identifier abc123, empty container. -/
theorem ready_renders_single_player_witness :
    run (envWith (some ⟨.string "abc123", .undefined⟩)) ⟨[⟨"42", []⟩], []⟩
        (some ⟨some [some ("42" ++ ":ready")]⟩)
        = ⟨⟨[⟨"42", [muxPlayer "abc123"]⟩], []⟩, none, []⟩
      ∧ ¬ isMarker (muxPlayer "abc123") :=
  ready_renders_single_player (envWith (some ⟨.string "abc123", .undefined⟩)) "42" "abc123" .undefined []
    (by decide) (by decide) (Or.inl rfl) rfl rfl

/-- C1 counterexample: a render target tagged with the empty id, status list
`[":ready"]`, backend answering abc123: the guard on the id returns before anything is
rendered and the container stays empty. And with video id 42, when the player script
does not load the request is never made and the container stays empty too. -/
theorem ready_empty_id_renders_nothing :
    run (envWith (some ⟨.string "abc123", .undefined⟩)) ⟨[⟨"", []⟩], []⟩
        (some ⟨some [some ("" ++ ":ready")]⟩)
        = ⟨⟨[⟨"", []⟩], []⟩, none, []⟩
      ∧ run (envScriptFails (some ⟨.string "abc123", .undefined⟩)) ⟨[⟨"42", []⟩], []⟩
          (some ⟨some [some ("42" ++ ":ready")]⟩)
        = ⟨⟨[⟨"42", []⟩], []⟩, none, ["loadScript"]⟩ := by
  exact ⟨rfl, rfl⟩

theorem renderPlaceholder_table (env : Env) (c : List Node) (s : String)
    (hc : markerIsChild c) :
    renderPlaceholder env c (tableType s) = .ok (withMarker c (tableNode env s)) := by
  unfold tableType tableNode
  by_cases h1 : s = "errored"
  · simp only [h1, if_true]; exact renderPlaceholder_errored env c hc
  · by_cases h2 : s = "waiting"
    · simp only [h1, h2, if_true, if_false]; exact renderPlaceholder_waiting env c hc
    · simp only [h1, h2, if_false]; exact renderPlaceholder_pending env c hc

/-- C2 (amended): for every non-empty video id, every status s other than `ready` and
every render target tagged with the id whose first `.icon-container` element, if any,
is a direct child, `renderVideos` with the single record `"<id>:<s>"` performs exactly
the one dispatch of the table: `renderPlaceholder(container, "errored")` for errored,
`renderPlaceholder(container, "waiting")` for waiting and
`renderPlaceholder(container, "pending")` for any other s (the empty s included); the
placeholder replaces the marker child or is appended, and nothing is thrown. -/
theorem single_record_dispatch (env : Env) (videoId s : String) (container : List Node)
    (hid : videoId ≠ "") (hs : s ≠ "ready") (hc : markerIsChild container) :
    renderPlaceholder env container (tableType s)
        = .ok (withMarker container (tableNode env s))
      ∧ run env ⟨[⟨videoId, container⟩], []⟩ (some ⟨some [some (videoId ++ ":" ++ s)]⟩)
        = ⟨⟨[⟨videoId, withMarker container (tableNode env s)⟩], []⟩, none, []⟩ := by
  refine ⟨renderPlaceholder_table env container s hc, ?_⟩
  simp only [run]
  rw [renderVideos_single env videoId container _ hid,
    eachVideoString_other env videoId s container hs]
  have h := renderPlaceholder_table env container s hc
  unfold tableType at h
  rw [h]
  simp [andThen, settle]

/-- C2 witness: video id 42, the unrecognized status bogus, empty container. -/
theorem single_record_dispatch_witness :
    renderPlaceholder (envWith none) [] (tableType "bogus")
        = .ok (withMarker [] (tableNode (envWith none) "bogus"))
      ∧ run (envWith none) ⟨[⟨"42", []⟩], []⟩ (some ⟨some [some ("42" ++ ":" ++ "bogus")]⟩)
        = ⟨⟨[⟨"42", withMarker [] (tableNode (envWith none) "bogus")⟩], []⟩, none, []⟩ :=
  single_record_dispatch (envWith none) "42" "bogus" [] (by decide) (by decide)
    markerIsChild_nil

/-- C2 counterexample: with the empty video id the record `":bogus"` renders nothing
(the container stays empty), and with video id 42 and a container whose placeholder is
nested below a paragraph the record `"42:errored"` makes `replaceChild` throw. -/
theorem single_record_dispatch_fails :
    (run (envWith none) ⟨[⟨"", []⟩], []⟩ (some ⟨some [some ("" ++ ":" ++ "bogus")]⟩)).elem
        = ⟨[⟨"", []⟩], []⟩
      ∧ run (envWith none) ⟨[⟨"42", nestedMarker⟩], []⟩
          (some ⟨some [some ("42" ++ ":" ++ "errored")]⟩)
        = ⟨⟨[⟨"42", nestedMarker⟩], []⟩, some "NotFoundError", []⟩ := by
  exact ⟨rfl, rfl⟩

/-- C3 (amended): for every non-empty video id and every render target tagged with it
whose first `.icon-container` element, if any, is a direct child, when the status
record is `"<id>:ready"`, the player script loads and the backend answers with no
playback identifier (absent or empty), the pending placeholder is rendered in the
container (in place of the marker child, or appended) and every node of the container
is one it held before or that placeholder, so no player element is added. -/
theorem ready_without_playback_id (env : Env) (videoId : String) (data : Data)
    (container : List Node) (hid : videoId ≠ "") (hc : markerIsChild container)
    (hload : env.loadScript MUX_PLAYER_URL = true)
    (hajax : env.ajax (playbackUrl videoId) = some data)
    (hp : data.playback_id.truthy = false) :
    run env ⟨[⟨videoId, container⟩], []⟩ (some ⟨some [some (videoId ++ ":ready")]⟩)
        = ⟨⟨[⟨videoId, withMarker container (pendingNode env)⟩], []⟩, none, []⟩
      ∧ (∀ n ∈ withMarker container (pendingNode env), n ∈ container ∨ n = pendingNode env)
      ∧ ∀ p, pendingNode env ≠ muxPlayer p := by
  refine ⟨?_, fun n hn => mem_withMarker _ _ _ hn, ?_⟩
  · simp only [run]
    rw [ready_record, renderVideos_single env videoId container _ hid,
      eachVideoString_ready env videoId container hid]
    simp only [settle_playback_single env videoId container _ _ hload hajax
      (renderVideoData_pending env container data hc hp)]
  · intro p h
    simp [pendingNode, iconContainerDiv, muxPlayer] at h

/-- C3 witness: video id 42, the backend answers with an empty playback identifier. -/
theorem ready_without_playback_id_witness :
    run (envWith (some ⟨.string "", .undefined⟩)) ⟨[⟨"42", []⟩], []⟩
        (some ⟨some [some ("42" ++ ":ready")]⟩)
        = ⟨⟨[⟨"42", withMarker [] (pendingNode (envWith (some ⟨.string "", .undefined⟩)))⟩], []⟩,
            none, []⟩
      ∧ (∀ n ∈ withMarker [] (pendingNode (envWith (some ⟨.string "", .undefined⟩))),
          n ∈ ([] : List Node) ∨ n = pendingNode (envWith (some ⟨.string "", .undefined⟩)))
      ∧ ∀ p, pendingNode (envWith (some ⟨.string "", .undefined⟩)) ≠ muxPlayer p :=
  ready_without_playback_id (envWith (some ⟨.string "", .undefined⟩)) "42" ⟨.string "", .undefined⟩ []
    (by decide) markerIsChild_nil rfl rfl rfl

/-- C3 counterexample: the backend answers with no playback identifier; with the empty
video id nothing is rendered (the container stays empty); with video id 42 and a
container whose placeholder is nested below a paragraph the continuation throws, the
container is left as it was and no pending placeholder is rendered; and with video id
42 and a player script that does not load nothing is rendered either. -/
theorem ready_without_playback_id_fails :
    run (envWith (some ⟨.undefined, .undefined⟩)) ⟨[⟨"", []⟩], []⟩ (some ⟨some [some ("" ++ ":ready")]⟩)
        = ⟨⟨[⟨"", []⟩], []⟩, none, []⟩
      ∧ run (envWith (some ⟨.undefined, .undefined⟩)) ⟨[⟨"42", nestedMarker⟩], []⟩
          (some ⟨some [some ("42" ++ ":ready")]⟩)
        = ⟨⟨[⟨"42", nestedMarker⟩], []⟩, none, ["NotFoundError"]⟩
      ∧ run (envScriptFails (some ⟨.undefined, .undefined⟩)) ⟨[⟨"42", []⟩], []⟩
          (some ⟨some [some ("42" ++ ":ready")]⟩)
        = ⟨⟨[⟨"42", []⟩], []⟩, none, ["loadScript"]⟩ := by
  exact ⟨rfl, rfl, rfl⟩

/-- C4 (code at the failing input): video id 42, empty container, status list
`["42:ready"]`, backend answering abc123. One call of the resolver leaves one player;
a second call on the resulting container appends a second player, because the
continuation of `renderVideo` only looks for a `.icon-container` child to replace. The
same happens when the container starts with one placeholder. -/
theorem ready_twice_duplicates_player :
    (run (envWith (some ⟨.string "abc123", .undefined⟩)) ⟨[⟨"42", []⟩], []⟩
        (some ⟨some [some "42:ready"]⟩)).elem
        = ⟨[⟨"42", [muxPlayer "abc123"]⟩], []⟩
      ∧ (run (envWith (some ⟨.string "abc123", .undefined⟩))
          (run (envWith (some ⟨.string "abc123", .undefined⟩)) ⟨[⟨"42", []⟩], []⟩
            (some ⟨some [some "42:ready"]⟩)).elem
          (some ⟨some [some "42:ready"]⟩)).elem
        = ⟨[⟨"42", [muxPlayer "abc123", muxPlayer "abc123"]⟩], []⟩
      ∧ (run (envWith (some ⟨.string "abc123", .undefined⟩))
          (run (envWith (some ⟨.string "abc123", .undefined⟩))
            ⟨[⟨"42", [pendingNode (envWith none)]⟩], []⟩
            (some ⟨some [some "42:ready"]⟩)).elem
          (some ⟨some [some "42:ready"]⟩)).elem
        = ⟨[⟨"42", [muxPlayer "abc123", muxPlayer "abc123"]⟩], []⟩ := by
  exact ⟨rfl, rfl, rfl⟩

/-- C5 (code at the failing input): video id 42, empty container, status list
`["42:errored", "43:waiting"]`. The record of video 43 is dispatched too, as an
unrecognized status, and its pending placeholder overwrites the errored one; with the
list restricted to the records of video 42 the container shows the errored
placeholder. The two results differ. -/
theorem other_video_record_overrides :
    restrictTo "42" [some "42:errored", some "43:waiting"] = [some "42:errored"]
      ∧ (run (envWith none) ⟨[⟨"42", []⟩], []⟩
          (some ⟨some [some "42:errored", some "43:waiting"]⟩)).elem
        = ⟨[⟨"42", [pendingNode (envWith none)]⟩], []⟩
      ∧ (run (envWith none) ⟨[⟨"42", []⟩], []⟩
          (some ⟨some (restrictTo "42" [some "42:errored", some "43:waiting"])⟩)).elem
        = ⟨[⟨"42", [erroredNode (envWith none)]⟩], []⟩
      ∧ pendingNode (envWith none) ≠ erroredNode (envWith none) := by
  refine ⟨rfl, rfl, rfl, ?_⟩
  simp [pendingNode, erroredNode, iconContainerDiv, envWith]

/-! ## Lemmas: lists of records without a ready one -/

theorem isMarker_tableNode (env : Env) (s : String) : isMarker (tableNode env s) := by
  unfold tableNode
  split <;> exact isMarker_iconContainerDiv _

theorem isMarker_recordNode (env : Env) (videoId : String) (r : Option String) :
    isMarker (recordNode env videoId r) := by
  unfold recordNode
  split
  · exact isMarker_tableNode env _
  · exact isMarker_iconContainerDiv _

theorem renderPlaceholder_record (env : Env) (videoId : String) (r : Option String)
    (c : List Node) (hc : markerIsChild c) :
    renderPlaceholder env c (recordType videoId r)
      = .ok (withMarker c (recordNode env videoId r)) := by
  unfold recordType recordNode
  split
  · exact renderPlaceholder_table env c _ hc
  · exact renderPlaceholder_waiting env c hc

theorem eachVideoString_cons (env : Env) (i : Nat) (videoId : String) (r : Option String)
    (rest : List (Option String)) (c : List Node) (hc : markerIsChild c)
    (hr : ¬ resolvesReady videoId r) :
    eachVideoString env i videoId (r :: rest) c
      = eachVideoString env i videoId rest (withMarker c (recordNode env videoId r)) := by
  have hE := renderPlaceholder_errored env c hc
  have hW := renderPlaceholder_waiting env c hc
  have hP := renderPlaceholder_pending env c hc
  by_cases ht : truthy r = true
  · have hs : statusOf videoId (recordText r) ≠ "ready" := fun e => hr ⟨ht, e⟩
    by_cases h1 : statusOf videoId (recordText r) = "errored"
    · simp [eachVideoString, recordNode, tableNode, ht, h1, hE, andThen]
    · by_cases h2 : statusOf videoId (recordText r) = "waiting"
      · simp [eachVideoString, recordNode, tableNode, ht, h2, hW, andThen]
      · simp [eachVideoString, recordNode, tableNode, ht, hs, h1, h2, hP, andThen]
  · simp [eachVideoString, recordNode, ht, hW, andThen]

theorem eachVideoString_noReady (env : Env) (i : Nat) (videoId : String) :
    ∀ (videos : List (Option String)) (c : List Node), markerIsChild c →
      (∀ r ∈ videos, ¬ resolvesReady videoId r) →
      eachVideoString env i videoId videos c
        = ⟨videos.foldl (fun c r => withMarker c (recordNode env videoId r)) c, [], none⟩
  | [], c, _, _ => by simp [eachVideoString]
  | r :: rest, c, hc, h => by
    rw [eachVideoString_cons env i videoId r rest c hc (h r (List.mem_cons_self _ _)),
      eachVideoString_noReady env i videoId rest _
        (withMarker_spec c _ hc (isMarker_recordNode env videoId r)).1
        (fun r hr => h r (List.mem_cons_of_mem _ hr))]
    rfl

theorem foldl_withMarker_last (f : Option String → Node) (hf : ∀ r, isMarker (f r)) :
    ∀ (videos : List (Option String)) (hne : videos ≠ []) (c : List Node), markerIsChild c →
      videos.foldl (fun c r => withMarker c (f r)) c = withMarker c (f (videos.getLast hne))
  | [], hne, _, _ => absurd rfl hne
  | [r], _, c, _ => by simp
  | r :: r2 :: rest, _, c, hc => by
    have hs := withMarker_spec c (f r) hc (hf r)
    rw [List.foldl_cons, foldl_withMarker_last f hf (r2 :: rest) (by simp) _ hs.1, hs.2]
    simp

theorem run_noReady (env : Env) (videoId : String) (videos : List (Option String))
    (c : List Node) (hid : videoId ≠ "") (hne : videos ≠ []) (hc : markerIsChild c)
    (h : ∀ r ∈ videos, ¬ resolvesReady videoId r) :
    run env ⟨[⟨videoId, c⟩], []⟩ (some ⟨some videos⟩)
      = ⟨⟨[⟨videoId, withMarker c (recordNode env videoId (videos.getLast hne))⟩], []⟩,
          none, []⟩ := by
  simp only [run]
  rw [renderVideos_single env videoId c _ hid, eachVideoString_noReady env 0 videoId videos c hc h,
    foldl_withMarker_last _ (isMarker_recordNode env videoId) videos hne c hc]
  simp [settle]

theorem statusOf_of_not_mentions (videoId v : String) (h : ¬ mentions videoId v) :
    statusOf videoId v = v := by
  simp only [statusOf, replace]
  show String.mk (replaceFirst (videoId ++ ":").data [] v.data) = v
  rw [replaceFirst_of_absent _ _ h]

theorem recordNode_of_not_errored (env : Env) (videoId : String) (r : Option String)
    (h : ¬ resolvesErrored videoId r) : recordNode env videoId r = pendingNode env := by
  unfold recordNode
  split
  · rename_i ht
    have he : statusOf videoId (recordText r) ≠ "errored" := fun e => h ⟨ht, e⟩
    simp [tableNode, he]
  · rfl

/-! ## Claims C9 and C6 -/

/-- C9 (amended): last record wins. For every render target with a non-empty id whose
container starts empty or with one placeholder, and every non-empty status list in
which no record resolves to `ready` for the id, `renderVideos` leaves exactly one node
in the container, a placeholder, and it is the one dispatched for the last record of
the list (waiting for a null or empty record, errored or waiting for those statuses of
the id, pending otherwise), whatever the earlier records were; nothing is thrown. -/
theorem last_record_wins (env : Env) (videoId : String) (videos : List (Option String))
    (container : List Node) (hid : videoId ≠ "") (hne : videos ≠ [])
    (hc : emptyOrOnePlaceholder container)
    (h : ∀ r ∈ videos, ¬ resolvesReady videoId r) :
    run env ⟨[⟨videoId, container⟩], []⟩ (some ⟨some videos⟩)
        = ⟨⟨[⟨videoId, [recordNode env videoId (videos.getLast hne)]⟩], []⟩, none, []⟩
      ∧ renderPlaceholder env container (recordType videoId (videos.getLast hne))
        = .ok [recordNode env videoId (videos.getLast hne)]
      ∧ isMarker (recordNode env videoId (videos.getLast hne)) := by
  have hm := markerIsChild_of_emptyOrOne container hc
  refine ⟨?_, ?_, isMarker_recordNode env videoId _⟩
  · rw [run_noReady env videoId videos container hid hne hm h,
      withMarker_of_emptyOrOne _ _ hc]
  · rw [renderPlaceholder_record env videoId _ container hm, withMarker_of_emptyOrOne _ _ hc]

/-- C9 witness: video id 42, empty container, the list `["42:errored", "43:waiting",
null]`: the waiting placeholder of the last record is what remains. -/
theorem last_record_wins_witness :
    run (envWith none) ⟨[⟨"42", []⟩], []⟩
        (some ⟨some [some "42:errored", some "43:waiting", none]⟩)
        = ⟨⟨[⟨"42", [recordNode (envWith none) "42"
              ([some "42:errored", some "43:waiting", none].getLast
                (List.cons_ne_nil _ _))]⟩], []⟩, none, []⟩
      ∧ renderPlaceholder (envWith none) []
          (recordType "42" ([some "42:errored", some "43:waiting", none].getLast
            (List.cons_ne_nil _ _)))
        = .ok [recordNode (envWith none) "42"
            ([some "42:errored", some "43:waiting", none].getLast (List.cons_ne_nil _ _))]
      ∧ isMarker (recordNode (envWith none) "42"
          ([some "42:errored", some "43:waiting", none].getLast (List.cons_ne_nil _ _))) :=
  last_record_wins (envWith none) "42" [some "42:errored", some "43:waiting", none] []
    (by decide) (List.cons_ne_nil _ _) (Or.inl rfl)
    (by
      intro r hr
      simp only [List.mem_cons, List.mem_singleton, List.not_mem_nil, or_false] at hr
      rcases hr with rfl | rfl | rfl <;> (unfold resolvesReady; decide))

/-- C9 counterexample: a render target tagged with the empty id, empty container, the
list `["x"]` in which no record resolves to ready: the guard on the id returns before
any record is looked at and the container holds no placeholder afterwards. -/
theorem last_record_empty_id_renders_nothing :
    run (envWith none) ⟨[⟨"", []⟩], []⟩ (some ⟨some [some "x"]⟩)
        = ⟨⟨[⟨"", []⟩], []⟩, none, []⟩
      ∧ ¬ resolvesReady "" (some "x") := by
  refine ⟨rfl, ?_⟩
  unfold resolvesReady
  decide

/-- C6 (amended): for every render target with a non-empty id whose first
`.icon-container` element, if any, is a direct child, and every non-empty status list
with no matching record (no record starts with `"<id>:"`; records of other ids, null
and empty records), provided no record resolves to ready and the last record does not
resolve to errored once the first `"<id>:"` inside it is removed, `renderVideos` leaves
the container as `renderPlaceholder(container, "waiting")` does: the waiting
placeholder (the same node as the pending one) in place of the marker child, or
appended. Nothing is thrown. -/
theorem unmatched_records_render_waiting (env : Env) (videoId : String)
    (videos : List (Option String)) (container : List Node) (hid : videoId ≠ "")
    (hne : videos ≠ []) (hc : markerIsChild container)
    (h : ∀ r ∈ videos, ¬ startsWithId videoId r ∧ ¬ resolvesReady videoId r)
    (hlast : ¬ resolvesErrored videoId (videos.getLast hne)) :
    run env ⟨[⟨videoId, container⟩], []⟩ (some ⟨some videos⟩)
        = ⟨⟨[⟨videoId, withMarker container (pendingNode env)⟩], []⟩, none, []⟩
      ∧ renderPlaceholder env container "waiting"
        = .ok (withMarker container (pendingNode env)) := by
  refine ⟨?_, renderPlaceholder_waiting env container hc⟩
  rw [run_noReady env videoId videos container hid hne hc (fun r hr => (h r hr).2),
    recordNode_of_not_errored env videoId _ hlast]

/-- C6 witness: video id 42, empty container, the list `[null, "43:errored",
"142:errored"]`: no record starts with `"42:"`, and the waiting node is rendered. -/
theorem unmatched_records_render_waiting_witness :
    run (envWith none) ⟨[⟨"42", []⟩], []⟩
        (some ⟨some [none, some "43:errored", some "142:errored"]⟩)
        = ⟨⟨[⟨"42", withMarker [] (pendingNode (envWith none))⟩], []⟩, none, []⟩
      ∧ renderPlaceholder (envWith none) [] "waiting"
        = .ok (withMarker [] (pendingNode (envWith none))) :=
  unmatched_records_render_waiting (envWith none) "42"
    [none, some "43:errored", some "142:errored"] []
    (by decide) (List.cons_ne_nil _ _) markerIsChild_nil
    (by
      intro r hr
      simp only [List.mem_cons, List.mem_singleton, List.not_mem_nil, or_false] at hr
      rcases hr with rfl | rfl | rfl
      · refine ⟨?_, by unfold resolvesReady; decide⟩
        rintro ⟨v, hv, -⟩
        cases hv
      · refine ⟨?_, by unfold resolvesReady; decide⟩
        rintro ⟨v, hv, hp⟩
        cases hv
        revert hp
        decide
      · refine ⟨?_, by unfold resolvesReady; decide⟩
        rintro ⟨v, hv, hp⟩
        cases hv
        revert hp
        decide)
    (by unfold resolvesErrored; decide)

/-- C6 counterexample, video id 42 unless said otherwise, no record starting with
`"42:"`. With the empty status list no record is walked and the container stays empty.
With the empty video id and the list `["43:errored"]` nothing is rendered either. With
a placeholder nested below a paragraph the same list makes `replaceChild` throw. The
record `"re42:ady"` of the id re42 resolves to ready and a player is rendered. The
record `"err42:ored"` of the id err42 resolves to errored and the errored placeholder,
a different node, is rendered. -/
theorem no_record_renders_nothing :
    run (envWith none) ⟨[⟨"42", []⟩], []⟩ (some ⟨some []⟩)
        = ⟨⟨[⟨"42", []⟩], []⟩, none, []⟩
      ∧ run (envWith none) ⟨[⟨"", []⟩], []⟩ (some ⟨some [some "43:errored"]⟩)
        = ⟨⟨[⟨"", []⟩], []⟩, none, []⟩
      ∧ run (envWith none) ⟨[⟨"42", nestedMarker⟩], []⟩ (some ⟨some [some "43:errored"]⟩)
        = ⟨⟨[⟨"42", nestedMarker⟩], []⟩, some "NotFoundError", []⟩
      ∧ restrictTo "42" [some "re42:ady", some "err42:ored"] = []
      ∧ run (envWith (some ⟨.string "abc123", .undefined⟩)) ⟨[⟨"42", []⟩], []⟩
          (some ⟨some [some "re42:ady"]⟩)
        = ⟨⟨[⟨"42", [muxPlayer "abc123"]⟩], []⟩, none, []⟩
      ∧ run (envWith none) ⟨[⟨"42", []⟩], []⟩ (some ⟨some [some "err42:ored"]⟩)
        = ⟨⟨[⟨"42", [erroredNode (envWith none)]⟩], []⟩, none, []⟩
      ∧ erroredNode (envWith none) ≠ pendingNode (envWith none) := by
  refine ⟨rfl, rfl, rfl, rfl, rfl, rfl, ?_⟩
  simp [pendingNode, erroredNode, iconContainerDiv, envWith]

/-! ## Lemmas: one download target -/

theorem eachDownloadString_replicate (i : Nat) (videoId : String) :
    ∀ videos : List (Option String), ∃ k,
      eachDownloadString i videoId videos = List.replicate k (Task.download i videoId)
        ∧ (0 < k → ∃ r ∈ videos, resolvesReady videoId r)
  | [] => ⟨0, by simp [eachDownloadString], by simp⟩
  | r :: rest => by
    obtain ⟨k, hk, hpos⟩ := eachDownloadString_replicate i videoId rest
    by_cases hr : resolvesReady videoId r
    · refine ⟨k + 1, ?_, fun _ => ⟨r, List.mem_cons_self _ _, hr⟩⟩
      simp [eachDownloadString, hr.1, hr.2, renderVideoDownloadLink, hk, List.replicate_succ]
    · refine ⟨k, ?_, fun h => ?_⟩
      · by_cases ht : truthy r = true
        · have hs : statusOf videoId (recordText r) ≠ "ready" := fun e => hr ⟨ht, e⟩
          simp [eachDownloadString, ht, hs, hk]
        · simp [eachDownloadString, ht, hk]
      · obtain ⟨q, hq, hqr⟩ := hpos h
        exact ⟨q, List.mem_cons_of_mem _ hq, hqr⟩

theorem renderVideos_download_single (env : Env) (videoId : String) (c : List Node)
    (videos : List (Option String)) :
    renderVideos env ⟨[], [⟨videoId, c⟩]⟩ (some ⟨some videos⟩)
      = ⟨⟨[], [⟨videoId, c⟩]⟩,
          if videoId = "" then [] else eachDownloadString 0 videoId videos, none⟩ := by
  by_cases hid : videoId = ""
  · simp [renderVideos, eachVideoTarget, eachDownloadTarget, hid]
  · simp [renderVideos, eachVideoTarget, eachDownloadTarget, hid]

theorem runTask_download_single (env : Env) (videoId : String) (c : List Node)
    (rej : List String) :
    ∃ rej2, runTask env ⟨⟨[], [⟨videoId, c⟩]⟩, rej⟩ (Task.download 0 videoId)
      = ⟨⟨[], [⟨videoId, downloadStep env videoId c⟩]⟩, rej2⟩ := by
  unfold downloadStep
  by_cases hl : env.loadScript HLS_SCRIPT_URL = true
  · cases ha : env.ajax (playbackUrl videoId) with
    | none => exact ⟨rej ++ ["ajax"], by simp [runTask, hl, ha]⟩
    | some data => exact ⟨rej, by simp [runTask, hl, ha, setChildren]⟩
  · exact ⟨rej ++ ["loadScript"], by simp [runTask, hl]⟩

theorem foldl_download_single (env : Env) (videoId : String) :
    ∀ (k : Nat) (c : List Node) (rej : List String), ∃ rej2,
      (List.replicate k (Task.download 0 videoId)).foldl (runTask env)
          ⟨⟨[], [⟨videoId, c⟩]⟩, rej⟩
        = ⟨⟨[], [⟨videoId, (downloadStep env videoId)^[k] c⟩]⟩, rej2⟩
  | 0, c, rej => ⟨rej, by simp⟩
  | k + 1, c, rej => by
    obtain ⟨rej1, h1⟩ := runTask_download_single env videoId c rej
    obtain ⟨rej2, h2⟩ := foldl_download_single env videoId k (downloadStep env videoId c) rej1
    exact ⟨rej2, by rw [List.replicate_succ, List.foldl_cons, h1, h2]; rfl⟩

/-- Children of a download target after one call of `renderVideos` and its
continuations: some number of download steps, positive only if a record resolves to
ready. -/
theorem run_download_single (env : Env) (videoId : String) (c : List Node)
    (videos : List (Option String)) :
    ∃ k, (run env ⟨[], [⟨videoId, c⟩]⟩ (some ⟨some videos⟩)).elem
        = ⟨[], [⟨videoId, (downloadStep env videoId)^[k] c⟩]⟩
      ∧ (0 < k → ∃ r ∈ videos, resolvesReady videoId r) := by
  simp only [run]
  rw [renderVideos_download_single]
  by_cases hid : videoId = ""
  · exact ⟨0, by simp [hid, settle], by simp⟩
  · obtain ⟨k, hk, hpos⟩ := eachDownloadString_replicate 0 videoId videos
    obtain ⟨rej2, h2⟩ := foldl_download_single env videoId k c []
    refine ⟨k, ?_, hpos⟩
    simp only [hid, if_false, settle, hk, h2]

theorem downloadStep_iterate_of_link (env : Env) (videoId : String) (data : Data)
    (ha : env.ajax (playbackUrl videoId) = some data) :
    ∀ (k : Nat) (c : List Node), ∃ m,
      (downloadStep env videoId)^[k] c = c ++ List.replicate m (downloadLink env data)
  | 0, c => ⟨0, by simp⟩
  | k + 1, c => by
    obtain ⟨m, hm⟩ := downloadStep_iterate_of_link env videoId data ha k
      (downloadStep env videoId c)
    rw [Function.iterate_succ_apply, hm]
    unfold downloadStep
    by_cases hl : env.loadScript HLS_SCRIPT_URL = true
    · by_cases hf : data.mp4_filename.truthy = true
      · exact ⟨m + 1, by
          simp [hl, ha, renderVideoDownloadLinkData, hf, appendChild, List.replicate_succ]⟩
      · exact ⟨m, by simp [hl, ha, renderVideoDownloadLinkData, hf]⟩
    · exact ⟨m, by simp [hl]⟩

theorem downloadStep_iterate_of_unnamed (env : Env) (videoId : String)
    (h : ∀ data, env.ajax (playbackUrl videoId) = some data → data.mp4_filename.truthy = false) :
    ∀ (k : Nat) (c : List Node), (downloadStep env videoId)^[k] c = c
  | 0, c => rfl
  | k + 1, c => by
    have hstep : downloadStep env videoId c = c := by
      unfold downloadStep
      by_cases hl : env.loadScript HLS_SCRIPT_URL = true
      · cases ha : env.ajax (playbackUrl videoId) with
        | none => simp [hl]
        | some data => simp [hl, renderVideoDownloadLinkData, h data ha]
      · simp [hl]
    rw [Function.iterate_succ_apply, hstep, downloadStep_iterate_of_unnamed env videoId h k c]

/-! ## Claim C7 -/

/-- Example: video id 42, the record `"42:ready"` and a response naming the file
`low.mp4`: one download link is appended to the empty container. -/
theorem download_link_example :
    (run (envWith (some ⟨.string "abc123", .string "low.mp4"⟩)) ⟨[], [⟨"42", []⟩]⟩
        (some ⟨some [some "42:ready"]⟩)).elem
      = ⟨[], [⟨"42", [downloadLink (envWith none) ⟨.string "abc123", .string "low.mp4"⟩]⟩]⟩ := by
  rfl

/-- Example: the address of the download link when the response carries a null playback
identifier and a file name; the template literal prints the null. -/
theorem mp4Url_null_example :
    mp4Url ⟨.null, .string "low.mp4"⟩ = "https://stream.mux.com/null/low.mp4?download=null.mp4"
      ∧ mp4Url ⟨.undefined, .string "low.mp4"⟩
        = "https://stream.mux.com/undefined/low.mp4?download=undefined.mp4" := by
  exact ⟨rfl, rfl⟩

/-- C7 (code at the failing input): download target of video 42 with an empty
container, a response naming the file `low.mp4`. Neither the list `["ready"]` nor the
list `["re42:ady"]` holds a record of video 42 (none starts with `"42:"`, and
`"42:ready"` is in neither), yet with each of them one download link is appended:
`replace` leaves the bare word as it is, and removes the `"42:"` it finds in the middle
of the other record. -/
theorem download_link_without_ready_record :
    restrictTo "42" [some "ready"] = []
      ∧ restrictTo "42" [some "re42:ady"] = []
      ∧ some "42:ready" ∉ [some "ready", some "re42:ady"]
      ∧ (run (envWith (some ⟨.string "abc123", .string "low.mp4"⟩)) ⟨[], [⟨"42", []⟩]⟩
          (some ⟨some [some "ready"]⟩)).elem
        = ⟨[], [⟨"42", [downloadLink (envWith none) ⟨.string "abc123", .string "low.mp4"⟩]⟩]⟩
      ∧ (run (envWith (some ⟨.string "abc123", .string "low.mp4"⟩)) ⟨[], [⟨"42", []⟩]⟩
          (some ⟨some [some "re42:ady"]⟩)).elem
        = ⟨[], [⟨"42", [downloadLink (envWith none) ⟨.string "abc123", .string "low.mp4"⟩]⟩]⟩ := by
  refine ⟨rfl, rfl, by decide, rfl, rfl⟩

/-- What the download pass does, in terms of the resolution the code itself applies
(`replace` of the first `"<id>:"`): the container is left unchanged when no record
resolves to `ready` or when the response has no non-empty `mp4_filename` (a failed
request included); whatever is added is copies of the download link node; and the
record `"<id>:ready"` is one that resolves to ready. -/
theorem download_pass_by_resolution (env : Env) (videoId : String)
    (container : List Node) (videos : List (Option String)) :
    ((¬ (∃ r ∈ videos, resolvesReady videoId r)
          ∨ ∀ data, env.ajax (playbackUrl videoId) = some data →
              data.mp4_filename.truthy = false) →
        (run env ⟨[], [⟨videoId, container⟩]⟩ (some ⟨some videos⟩)).elem
          = ⟨[], [⟨videoId, container⟩]⟩)
      ∧ ((run env ⟨[], [⟨videoId, container⟩]⟩ (some ⟨some videos⟩)).elem
            ≠ ⟨[], [⟨videoId, container⟩]⟩ →
          (∃ r ∈ videos, resolvesReady videoId r)
            ∧ ∃ data, env.ajax (playbackUrl videoId) = some data
                ∧ data.mp4_filename.truthy = true)
      ∧ (∀ data, env.ajax (playbackUrl videoId) = some data →
          ∃ m, (run env ⟨[], [⟨videoId, container⟩]⟩ (some ⟨some videos⟩)).elem
            = ⟨[], [⟨videoId, container ++ List.replicate m (downloadLink env data)⟩]⟩)
      ∧ resolvesReady videoId (some (videoId ++ ":ready")) := by
  obtain ⟨k, hk, hpos⟩ := run_download_single env videoId container videos
  have h1 : (¬ (∃ r ∈ videos, resolvesReady videoId r)
        ∨ ∀ data, env.ajax (playbackUrl videoId) = some data →
            data.mp4_filename.truthy = false) →
      (run env ⟨[], [⟨videoId, container⟩]⟩ (some ⟨some videos⟩)).elem
        = ⟨[], [⟨videoId, container⟩]⟩ := by
    rintro (hn | hu)
    · have hk0 : k = 0 := by
        rcases Nat.eq_zero_or_pos k with h0 | h0
        · exact h0
        · exact absurd (hpos h0) hn
      rw [hk, hk0]; rfl
    · rw [hk, downloadStep_iterate_of_unnamed env videoId hu]
  refine ⟨h1, ?_, ?_, ?_⟩
  rotate_left 2
  · rw [ready_record]
    exact ⟨truthy_prefixed videoId "ready", by rw [recordText, statusOf_prefixed]⟩
  · intro hne
    by_contra hcon
    apply hne
    apply h1
    by_cases hr : ∃ r ∈ videos, resolvesReady videoId r
    · right
      intro data ha
      by_contra hf
      exact hcon ⟨hr, data, ha, by simpa using hf⟩
    · exact Or.inl hr
  · intro data ha
    obtain ⟨m, hm⟩ := downloadStep_iterate_of_link env videoId data ha k container
    exact ⟨m, by rw [hk, hm]⟩

/-! ## Lemmas: the video-changed message -/

theorem eachArticle_length (env : Env) (post : Option Post) (id : String) :
    ∀ articles : List Article, (eachArticle env post id articles).articles.length
      = articles.length
  | [] => rfl
  | a :: rest => by
    have ih := eachArticle_length env post id rest
    by_cases h : a.postId = id
    · cases hf : (run env a.elem post).thrown with
      | none => simp [eachArticle, h, hf, ih]
      | some e => simp [eachArticle, h, hf]
    · simp [eachArticle, h, ih]

theorem eachArticle_other (env : Env) (post : Option Post) (id : String) :
    ∀ (articles : List Article) (i : Nat) (a : Article), articles.get? i = some a →
      a.postId ≠ id → (eachArticle env post id articles).articles.get? i = some a
  | [], i, a, h, _ => by simp at h
  | b :: rest, 0, a, h, hne => by
    simp only [List.get?_cons_zero, Option.some.injEq] at h
    subst h
    simp [eachArticle, hne]
  | b :: rest, i + 1, a, h, hne => by
    simp only [List.get?_cons_succ] at h
    have ih := eachArticle_other env post id rest i a h hne
    by_cases hb : b.postId = id
    · cases hf : (run env b.elem post).thrown with
      | none => simpa [eachArticle, hb, hf] using ih
      | some e => simpa [eachArticle, hb, hf] using h
    · simpa [eachArticle, hb] using ih

theorem eachArticle_map (env : Env) (post : Option Post) (id : String) :
    ∀ articles : List Article, (eachArticle env post id articles).thrown = none →
      (eachArticle env post id articles).articles
        = articles.map fun a =>
            if a.postId = id then ⟨a.postId, (run env a.elem post).elem⟩ else a
  | [], _ => rfl
  | a :: rest, h => by
    by_cases ha : a.postId = id
    · cases hf : (run env a.elem post).thrown with
      | none =>
        simp only [eachArticle, ha, hf, if_true] at h
        simp [eachArticle, ha, hf, eachArticle_map env post id rest h]
      | some e => simp [eachArticle, ha, hf] at h
    · simp only [eachArticle, ha, if_false] at h
      simp [eachArticle, ha, eachArticle_map env post id rest h]

/-! ## Claim C8 -/

/-- C8 (amended): whenever the feature is enabled, the handler for the message
`discourse_video_video_changed` is registered exactly when there is a current user and
that user has the upload capability flag. A message carrying the post id `messageId`
leaves every article whose `data-post-id` differs from the id untouched, at its place;
and when the post change resolves and nothing is thrown, the articles afterwards are
the articles before with `renderVideos` (and its continuations) re-run on exactly those
whose `data-post-id` equals the id. -/
theorem video_changed_handler (env : Env) (siteSettings : SiteSettings) (api : Api)
    (stream : Stream) (articles : List Article) (messageId : Nat) :
    (siteSettings.discourse_video_enabled = true →
        (Registration.registerCustomPostMessageCallback "discourse_video_video_changed"
            ∈ initializer siteSettings api
          ↔ ∃ user, api.currentUser = some user ∧ user.can_upload_video = true))
      ∧ (videoChanged env stream articles messageId).articles.length = articles.length
      ∧ (∀ i a, articles.get? i = some a → a.postId ≠ toString messageId →
          (videoChanged env stream articles messageId).articles.get? i = some a)
      ∧ (stream.triggerChangedPost messageId = true →
          (videoChanged env stream articles messageId).thrown = none →
          (videoChanged env stream articles messageId).articles
            = articles.map fun a =>
                if a.postId = toString messageId then
                  ⟨a.postId, (run env a.elem (stream.findLoadedPost messageId)).elem⟩
                else a) := by
  refine ⟨?_, ?_, ?_, ?_⟩
  · intro he
    cases hu : api.currentUser with
    | none => by_cases hc : api.decorateChatMessage = true <;>
        simp [initializer, initializeDiscourseVideo, he, hu, hc]
    | some user =>
      by_cases hc : api.decorateChatMessage = true <;>
        by_cases hv : user.can_upload_video = true <;>
          simp [initializer, initializeDiscourseVideo, he, hu, hc, hv]
  · by_cases ht : stream.triggerChangedPost messageId = true
    · simp [videoChanged, ht, eachArticle_length]
    · simp [videoChanged, ht]
  · intro i a hi hne
    by_cases ht : stream.triggerChangedPost messageId = true
    · simpa [videoChanged, ht] using eachArticle_other env _ _ articles i a hi hne
    · simpa [videoChanged, ht] using hi
  · intro ht hn
    simp only [videoChanged, ht, if_true] at hn ⊢
    exact eachArticle_map env _ _ articles hn

/-- C8 counterexample: the feature is enabled, but with nobody logged in, and with a
logged-in user who lacks the upload capability flag, no handler for
`discourse_video_video_changed` is registered. -/
theorem handler_not_registered_without_upload_flag :
    Registration.registerCustomPostMessageCallback "discourse_video_video_changed"
        ∉ initializer ⟨true, "mp4|mov"⟩ ⟨none, true, true⟩
      ∧ Registration.registerCustomPostMessageCallback "discourse_video_video_changed"
        ∉ initializer ⟨true, "mp4|mov"⟩ ⟨some ⟨false⟩, true, true⟩ := by
  constructor <;> decide

/-! ## Lemmas: what the resolver can add to a render target -/

theorem grown_refl (env : Env) (c : List Node) : grown env c c :=
  fun _ hn => Or.inl hn

theorem grown_trans (env : Env) (a b c : List Node) (h1 : grown env a b) (h2 : grown env b c) :
    grown env a c := by
  intro n hn
  rcases h2 n hn with h | h
  · exact h1 n h
  · exact Or.inr h

theorem replaceOrAppend_mem (c c2 : List Node) (n : Node)
    (h : (match querySelector c "icon-container" with
      | some placeholder => replaceChild c n placeholder
      | none => Except.ok (appendChild c n)) = Except.ok c2) :
    ∀ x ∈ c2, x ∈ c ∨ x = n := by
  intro x hx
  cases hq : querySelector c "icon-container" with
  | none =>
    rw [hq] at h
    simp only [appendChild, Except.ok.injEq] at h
    subst h
    simpa using hx
  | some p =>
    rw [hq] at h
    match p, h with
    | [i], h =>
      simp only [replaceChild] at h
      split at h
      · simp only [Except.ok.injEq] at h
        subst h
        exact List.mem_or_eq_of_mem_set hx
      · simp at h
    | [], h => simp [replaceChild] at h
    | _ :: _ :: _, h => simp [replaceChild] at h

theorem renderPlaceholder_grown (env : Env) (c c2 : List Node) (type : String)
    (ht : type = "pending" ∨ type = "waiting" ∨ type = "errored")
    (h : renderPlaceholder env c type = .ok c2) : grown env c c2 := by
  intro x hx
  rcases ht with rfl | rfl | rfl
  · simp only [renderPlaceholder, placeholders_pending] at h
    rcases replaceOrAppend_mem c c2 _ h x hx with h1 | h1
    · exact Or.inl h1
    · exact Or.inr (Or.inl h1)
  · simp only [renderPlaceholder, placeholders_waiting] at h
    rcases replaceOrAppend_mem c c2 _ h x hx with h1 | h1
    · exact Or.inl h1
    · exact Or.inr (Or.inl h1)
  · simp only [renderPlaceholder, placeholders_errored] at h
    rcases replaceOrAppend_mem c c2 _ h x hx with h1 | h1
    · exact Or.inl h1
    · exact Or.inr (Or.inr (Or.inl h1))

theorem renderVideoData_grown (env : Env) (c c2 : List Node) (data : Data)
    (h : renderVideoData env c data = .ok c2) : grown env c c2 := by
  unfold renderVideoData at h
  split at h
  · exact renderPlaceholder_grown env c c2 "pending" (Or.inl rfl) h
  · intro x hx
    rcases replaceOrAppend_mem c c2 _ h x hx with h1 | h1
    · exact Or.inl h1
    · exact Or.inr (Or.inr (Or.inr ⟨_, h1⟩))

theorem andThen_grown (env : Env) (r : Except String (List Node)) (c : List Node)
    (rest : List Node → Pass) (hr : ∀ c2, r = .ok c2 → grown env c c2)
    (hrest : ∀ c2, grown env c2 (rest c2).children) :
    grown env c (andThen r c rest).children := by
  cases r with
  | error e => exact grown_refl env c
  | ok c2 => exact grown_trans env c c2 _ (hr c2 rfl) (hrest c2)

theorem eachVideoString_grown (env : Env) (i : Nat) (videoId : String) :
    ∀ (videos : List (Option String)) (c : List Node),
      grown env c (eachVideoString env i videoId videos c).children
  | [], c => grown_refl env c
  | r :: rest, c => by
    have ih := eachVideoString_grown env i videoId rest
    unfold eachVideoString
    split
    · simp only
      split
      · exact ih c
      · split
        · exact andThen_grown env _ c _
            (fun c2 h => renderPlaceholder_grown env c c2 _ (Or.inr (Or.inr rfl)) h) ih
        · split
          · exact andThen_grown env _ c _
              (fun c2 h => renderPlaceholder_grown env c c2 _ (Or.inr (Or.inl rfl)) h) ih
          · exact andThen_grown env _ c _
              (fun c2 h => renderPlaceholder_grown env c c2 _ (Or.inl rfl) h) ih
    · exact andThen_grown env _ c _
        (fun c2 h => renderPlaceholder_grown env c c2 _ (Or.inr (Or.inl rfl)) h) ih

theorem forall₂_grown_refl (env : Env) :
    ∀ ts : List Target, List.Forall₂ (fun t t2 => grown env t.children t2.children) ts ts
  | [] => List.Forall₂.nil
  | _ :: ts => List.Forall₂.cons (grown_refl env _) (forall₂_grown_refl env ts)

theorem eachVideoTarget_grown (env : Env) (post : Option Post) :
    ∀ (i : Nat) (ts : List Target),
      List.Forall₂ (fun t t2 => grown env t.children t2.children) ts
        (eachVideoTarget env post i ts).1
  | _, [] => List.Forall₂.nil
  | i, t :: ts => by
    have ih := eachVideoTarget_grown env post (i + 1) ts
    unfold eachVideoTarget
    split
    · exact forall₂_grown_refl env _
    · split
      · exact List.Forall₂.cons (grown_refl env _) ih
      · split
        · exact List.Forall₂.cons (grown_refl env _) ih
        · simp only
          split
          · exact List.Forall₂.cons (eachVideoString_grown env i t.videoId _ t.children)
              (forall₂_grown_refl env ts)
          · exact List.Forall₂.cons (eachVideoString_grown env i t.videoId _ t.children) ih

theorem setChildren_grown (env : Env) :
    ∀ (orig cur : List Target) (i : Nat) (t : Target) (c : List Node),
      List.Forall₂ (fun t t2 => grown env t.children t2.children) orig cur →
      cur.get? i = some t → grown env t.children c →
      List.Forall₂ (fun t t2 => grown env t.children t2.children) orig (setChildren cur i c)
  | _, [], _, _, _, _, h, _ => by simp at h
  | _, u :: cur, 0, t, c, hf, h, hg => by
    simp only [List.get?_cons_zero, Option.some.injEq] at h
    subst h
    cases hf with
    | cons h1 h2 => exact List.Forall₂.cons (grown_trans env _ _ _ h1 hg) h2
  | _, u :: cur, i + 1, t, c, hf, h, hg => by
    simp only [List.get?_cons_succ] at h
    cases hf with
    | cons h1 h2 =>
      exact List.Forall₂.cons h1 (setChildren_grown env _ cur i t c h2 h hg)

theorem runTask_grown (env : Env) (orig : List Target) (s : Settled) (task : Task)
    (h : List.Forall₂ (fun t t2 => grown env t.children t2.children) orig s.elem.videoTargets) :
    List.Forall₂ (fun t t2 => grown env t.children t2.children) orig
      (runTask env s task).elem.videoTargets := by
  cases task with
  | playback i videoId =>
    simp only [runTask]
    by_cases hl : env.loadScript MUX_PLAYER_URL = true
    · simp only [hl, if_true]
      cases ha : env.ajax (playbackUrl videoId) with
      | none => cases s.elem.videoTargets.get? i <;> exact h
      | some data =>
        cases ht : s.elem.videoTargets.get? i with
        | none => exact h
        | some t =>
          simp only []
          cases hc : renderVideoData env t.children data with
          | ok c =>
            exact setChildren_grown env orig _ i t c h ht (renderVideoData_grown env _ _ _ hc)
          | error e => exact h
    · simp only [hl]
      exact h
  | download i videoId =>
    simp only [runTask]
    by_cases hl : env.loadScript HLS_SCRIPT_URL = true
    · simp only [hl, if_true]
      cases ha : env.ajax (playbackUrl videoId) with
      | none => cases s.elem.downloadTargets.get? i <;> exact h
      | some data =>
        cases ht : s.elem.downloadTargets.get? i with
        | none => exact h
        | some t => exact h
    · simp only [hl]
      exact h

theorem foldl_runTask_grown (env : Env) (orig : List Target) :
    ∀ (tasks : List Task) (s : Settled),
      List.Forall₂ (fun t t2 => grown env t.children t2.children) orig s.elem.videoTargets →
      List.Forall₂ (fun t t2 => grown env t.children t2.children) orig
        (tasks.foldl (runTask env) s).elem.videoTargets
  | [], _, h => h
  | task :: tasks, s, h =>
    foldl_runTask_grown env orig tasks _ (runTask_grown env orig s task h)

theorem renderVideos_videoTargets (env : Env) (elem : Elem) (post : Option Post) :
    (renderVideos env elem post).elem.videoTargets
      = (eachVideoTarget env post 0 elem.videoTargets).1 := by
  simp only [renderVideos]
  cases (eachVideoTarget env post 0 elem.videoTargets).2.2 <;> rfl

/-! ## Claim C10 -/

/-- C10: for every container, `renderPlaceholder(container, "waiting")` and
`renderPlaceholder(container, "pending")` give the same result, the two table entries
being equal (the spinner markup and the string of the key
`discourse_video.state.pending`); every entry of the table yields one of three nodes
(pending, errored, unknown); and after any call of `renderVideos` with its
continuations, every node of a render target is one it held before, the pending
(waiting) placeholder, the errored placeholder or a player, so the unknown visual is
never rendered. -/
theorem waiting_and_pending_coincide (env : Env) (container : List Node) (elem : Elem)
    (post : Option Post) :
    renderPlaceholder env container "waiting" = renderPlaceholder env container "pending"
      ∧ placeholders env "waiting" = placeholders env "pending"
      ∧ placeholders env "pending"
        = some ⟨"<div class='spinner'></div>", env.i18n "discourse_video.state.pending"⟩
      ∧ (∀ type ph, placeholders env type = some ph →
          iconContainerDiv ph = pendingNode env ∨ iconContainerDiv ph = erroredNode env
            ∨ iconContainerDiv ph = unknownNode env)
      ∧ List.Forall₂
          (fun t t2 => ∀ n ∈ t2.children,
            n ∈ t.children ∨ n = pendingNode env ∨ n = erroredNode env ∨ ∃ p, n = muxPlayer p)
          elem.videoTargets (run env elem post).elem.videoTargets := by
  refine ⟨?_, ?_, placeholders_pending env, ?_, ?_⟩
  · simp only [renderPlaceholder, placeholders_waiting, placeholders_pending]
  · rw [placeholders_waiting, placeholders_pending]
  · intro type ph h
    unfold placeholders at h
    split at h
    · simp only [Option.some.injEq] at h; subst h; exact Or.inl rfl
    · split at h
      · simp only [Option.some.injEq] at h; subst h; exact Or.inl rfl
      · split at h
        · simp only [Option.some.injEq] at h; subst h; exact Or.inr (Or.inl rfl)
        · split at h
          · simp only [Option.some.injEq] at h; subst h; exact Or.inr (Or.inr rfl)
          · simp at h
  · have h0 := eachVideoTarget_grown env post 0 elem.videoTargets
    rw [← renderVideos_videoTargets] at h0
    exact foldl_runTask_grown env elem.videoTargets (renderVideos env elem post).tasks
      ⟨(renderVideos env elem post).elem, []⟩ h0

end DiscourseVideo

